import Mathlib

/-!
Shallow embedding of the NKMusicBot playback coordinator:
`src/utils/audio_manager.py` (class `AudioManager`) together with the
command-level entry points in `src/handlers/music_handler.py` and
`src/handlers/callback_handler.py`.

The AudioManager keeps five per-chat dictionaries
(`queues`, `current_tracks`, `loop_modes`, `volumes`, `paused_chats`);
we model them as functions from chat id (`Int`) to `Option`-valued
entries (`none` = key absent).  Calls into the external voice transport
(pytgcalls) are recorded in an effect trace (`TCall`); whether such an
external call succeeds or raises is supplied as a `Bool` parameter, so
an operation is a pure function from the pre-state and the outcome of
its external calls to the post-state, the trace of attempted transport
calls, and its return value.  Randomness (`random.shuffle`) is supplied
as a list of chosen indices consumed by the Fisher-Yates loop.
-/

/-- Configuration values read from the environment in `config.py`
(`MAX_QUEUE_SIZE`, `DEFAULT_VOLUME`). -/
structure Config where
  maxQueueSize : Nat
  defaultVolume : Int
deriving Repr, DecidableEq

/-- The defaults from `config.py`: `MAX_QUEUE_SIZE = 50`,
`DEFAULT_VOLUME = 100`. -/
def Config.default50 : Config := ⟨50, 100⟩

/-- A track dictionary as produced by the downloader and stored in the
queues: title, the stream locator (`file_path`), duration, and the
requester fields that `add_to_queue` fills in. -/
structure Track where
  title : String
  file_path : String
  duration : Nat
  requested_by : Int
  requester_name : String
deriving Repr, DecidableEq

/-- One attempted call into the external voice transport (pytgcalls). -/
inductive TCall where
  | joinGroupCall : Int → TCall
  | leaveGroupCall : Int → TCall
  | changeStream : Int → String → TCall
  | changeVolume : Int → Int → TCall
  | pauseStream : Int → TCall
  | resumeStream : Int → TCall
deriving Repr, DecidableEq

/-- The in-memory per-chat state of `AudioManager`: the five
dictionaries declared in `AudioManager.__init__`. -/
structure AMState where
  queues : Int → Option (List Track)
  current_tracks : Int → Option (Option Track)
  loop_modes : Int → Option String
  volumes : Int → Option Int
  paused_chats : Int → Bool

/-- Point update of a dictionary (`d[k] = v` for `v = some _`,
`d.pop(k)` for `v = none`). -/
def updFn {α : Type} (f : Int → Option α) (k : Int) (v : Option α) :
    Int → Option α :=
  fun k' => if k' = k then v else f k'

/-- Point update of the paused set (`add` / `discard`). -/
def updSet (f : Int → Bool) (k : Int) (v : Bool) : Int → Bool :=
  fun k' => if k' = k then v else f k'

/-- The state of a freshly constructed `AudioManager`: all dictionaries
empty. -/
def AMState.init : AMState :=
  ⟨fun _ => none, fun _ => none, fun _ => none, fun _ => none, fun _ => false⟩

/-- `AudioManager.join_voice_chat`: lazily initialize the per-chat state
(empty queue, no current track, loop off, default volume) when the chat
has no `queues` entry, then attempt `join_group_call`; on failure the
exception propagates (`raise`) but the initialization already done is
kept.  Returns `true` when the join call succeeded. -/
def join_voice_chat (cfg : Config) (s : AMState) (chat : Int)
    (joinOk : Bool) : AMState × List TCall × Bool :=
  let s' :=
    if (s.queues chat).isNone then
      { s with
        queues := updFn s.queues chat (some []),
        current_tracks := updFn s.current_tracks chat (some none),
        loop_modes := updFn s.loop_modes chat (some "off"),
        volumes := updFn s.volumes chat (some cfg.defaultVolume) }
    else s
  (s', [TCall.joinGroupCall chat], joinOk)

/-- `AudioManager.leave_voice_chat`: attempt `leave_group_call`; if it
succeeds, pop every per-chat entry; if it raises, the exception is
caught and logged and none of the pops run. -/
def leave_voice_chat (s : AMState) (chat : Int) (leaveOk : Bool) :
    AMState × List TCall :=
  if leaveOk then
    ({ queues := updFn s.queues chat none,
       current_tracks := updFn s.current_tracks chat none,
       loop_modes := updFn s.loop_modes chat none,
       volumes := updFn s.volumes chat none,
       paused_chats := updSet s.paused_chats chat false },
     [TCall.leaveGroupCall chat])
  else (s, [TCall.leaveGroupCall chat])

/-- `AudioManager.add_to_queue`: lazily create the queue entry, raise
(`none`) when the queue already holds `MAX_QUEUE_SIZE` tracks, otherwise
stamp the requester fields onto the track, append it and return the
1-based position (queue length after the append). -/
def add_to_queue (cfg : Config) (s : AMState) (chat : Int) (t : Track)
    (user : Int) : AMState × Option Nat :=
  let s0 :=
    if (s.queues chat).isNone then
      { s with queues := updFn s.queues chat (some []) }
    else s
  let q := (s0.queues chat).getD []
  if cfg.maxQueueSize ≤ q.length then (s0, none)
  else
    let t' := { t with requested_by := user, requester_name := "Unknown" }
    ({ s0 with queues := updFn s0.queues chat (some (q ++ [t'])) },
     some (q.length + 1))

/-- `AudioManager.play_next`: if the chat has a non-empty queue, pop its
head into `current_tracks`, then attempt `change_stream` followed by
`change_volume_call`; `csOk`/`cvOk` say whether those external calls
succeed.  An exception is caught and `False` is returned, but the queue
pop and the `current_tracks` update already happened.  Returns `false`
immediately (no mutation, no transport call) when the queue is absent or
empty. -/
def play_next (cfg : Config) (s : AMState) (chat : Int)
    (csOk cvOk : Bool) : AMState × List TCall × Bool :=
  match s.queues chat with
  | none => (s, [], false)
  | some [] => (s, [], false)
  | some (t :: rest) =>
    let s1 := { s with
      queues := updFn s.queues chat (some rest),
      current_tracks := updFn s.current_tracks chat (some (some t)) }
    let vol := (s1.volumes chat).getD cfg.defaultVolume
    if csOk then
      (s1, [TCall.changeStream chat t.file_path, TCall.changeVolume chat vol],
       cvOk)
    else
      (s1, [TCall.changeStream chat t.file_path], false)

/-- `AudioManager.skip`: when the chat has a `current_tracks` entry
(whatever its value), delegate to `play_next`; otherwise return
`false`. -/
def skip (cfg : Config) (s : AMState) (chat : Int) (csOk cvOk : Bool) :
    AMState × List TCall × Bool :=
  if (s.current_tracks chat).isSome then play_next cfg s chat csOk cvOk
  else (s, [], false)

/-- `AudioManager.stop`: when `is_in_voice_chat` reports an active call
(`inVC`), delegate to `leave_voice_chat`; otherwise do nothing. -/
def stop (s : AMState) (chat : Int) (inVC leaveOk : Bool) :
    AMState × List TCall :=
  if inVC then leave_voice_chat s chat leaveOk else (s, [])

/-- `AudioManager.clear_queue`: empty the chat's queue list in place
when the entry exists. -/
def clear_queue (s : AMState) (chat : Int) : AMState :=
  if (s.queues chat).isSome then
    { s with queues := updFn s.queues chat (some []) }
  else s

/-- `AudioManager.set_loop_mode`: unconditionally store the given
mode string. -/
def set_loop_mode (s : AMState) (chat : Int) (mode : String) : AMState :=
  { s with loop_modes := updFn s.loop_modes chat (some mode) }

/-- `AudioManager.set_volume`: store the volume, then, when the chat is
in a voice call, attempt `change_volume_call` (any exception is caught
and logged, so the stored value stays either way). -/
def set_volume (s : AMState) (chat : Int) (vol : Int) (inVC : Bool) :
    AMState × List TCall :=
  ({ s with volumes := updFn s.volumes chat (some vol) },
   if inVC then [TCall.changeVolume chat vol] else [])

/-- `AudioManager.pause`: when in a voice call and not already paused,
attempt `pause_stream`; on success record the chat as paused and return
`true`; an exception is caught and `false` returned with the paused set
untouched. -/
def pause (s : AMState) (chat : Int) (inVC pOk : Bool) :
    AMState × List TCall × Bool :=
  if inVC && !(s.paused_chats chat) then
    if pOk then
      ({ s with paused_chats := updSet s.paused_chats chat true },
       [TCall.pauseStream chat], true)
    else (s, [TCall.pauseStream chat], false)
  else (s, [], false)

/-- `AudioManager.resume`: when the chat is recorded as paused, attempt
`resume_stream`; on success remove it from the paused set and return
`true`. -/
def resume (s : AMState) (chat : Int) (rOk : Bool) :
    AMState × List TCall × Bool :=
  if s.paused_chats chat then
    if rOk then
      ({ s with paused_chats := updSet s.paused_chats chat false },
       [TCall.resumeStream chat], true)
    else (s, [TCall.resumeStream chat], false)
  else (s, [], false)

/-- One step of CPython's `random.shuffle` body
`x[i], x[j] = x[j], x[i]`: simultaneous swap of the elements at `i` and
`j` (identity when either index is out of range, which the real loop
never produces). -/
def listSwap {α : Type} (l : List α) (i j : Nat) : List α :=
  match l.get? i, l.get? j with
  | some a, some b => (l.set i b).set j a
  | _, _ => l

/-- The loop of `random.shuffle`:
`for i in reversed(range(1, len(x))): j = randbelow(i+1); swap`.
The drawn indices `j` are supplied in `rand`, consumed from the front as
`i` counts down. -/
def pyShuffleAux {α : Type} : List α → Nat → List Nat → List α
  | l, 0, _ => l
  | l, _ + 1, [] => l
  | l, i + 1, j :: rest => pyShuffleAux (listSwap l (i + 1) j) i rest

/-- `random.shuffle(x)` on a list, with the randomness source made
explicit. -/
def pyShuffle {α : Type} (l : List α) (rand : List Nat) : List α :=
  pyShuffleAux l (l.length - 1) rand

/-- `AudioManager.shuffle_queue`: when the chat has a non-empty queue,
shuffle it in place and return `true`; otherwise return `false` leaving
everything untouched. -/
def shuffle_queue (s : AMState) (chat : Int) (rand : List Nat) :
    AMState × Bool :=
  match s.queues chat with
  | some (t :: ts) =>
    ({ s with queues := updFn s.queues chat (some (pyShuffle (t :: ts) rand)) },
     true)
  | _ => (s, false)

/-- The final `else` of `AudioManager._on_stream_end`: `play_next`, and
when it returns `False`, `leave_voice_chat`. -/
def stream_end_advance (cfg : Config) (s : AMState) (chat : Int)
    (csOk cvOk leaveOk : Bool) : AMState × List TCall :=
  let r := play_next cfg s chat csOk cvOk
  if r.2.2 then (r.1, r.2.1)
  else
    let r2 := leave_voice_chat r.1 chat leaveOk
    (r2.1, r.2.1 ++ r2.2)

/-- `AudioManager._on_stream_end`: the three-way loop-mode branch.
`loop == "song"` with a current track re-issues the same stream (an
exception is caught, so the state is unchanged either way);
`loop == "queue"` with a current track appends it to
`self.queues[chat_id]` — a direct index that raises `KeyError` (`none`)
when the chat has no queue entry — and then plays the next track; any
other combination advances, leaving the voice chat when nothing is left
to play. -/
def on_stream_end (cfg : Config) (s : AMState) (chat : Int)
    (csOk cvOk leaveOk : Bool) : Option (AMState × List TCall) :=
  let loop := (s.loop_modes chat).getD "off"
  match (s.current_tracks chat).getD none with
  | some c =>
    if loop = "song" then some (s, [TCall.changeStream chat c.file_path])
    else if loop = "queue" then
      match s.queues chat with
      | none => none
      | some q =>
        let s1 := { s with queues := updFn s.queues chat (some (q ++ [c])) }
        let r := play_next cfg s1 chat csOk cvOk
        some (r.1, r.2.1)
    else some (stream_end_advance cfg s chat csOk cvOk leaveOk)
  | none => some (stream_end_advance cfg s chat csOk cvOk leaveOk)

/-- The queueing tail of `MusicHandler.play` once the track is resolved
and the bot is in the voice chat: `add_to_queue` (a `QueueFull`
exception is caught by the surrounding `try`, yielding `none`), and when
the returned position is 1, `play_next`.  `trace0` carries transport
calls already made by the join step. -/
def playAfterJoin (cfg : Config) (s : AMState) (chat : Int) (t : Track)
    (user : Int) (trace0 : List TCall) (csOk cvOk : Bool) :
    AMState × List TCall × Option Nat :=
  let a := add_to_queue cfg s chat t user
  match a.2 with
  | none => (a.1, trace0, none)
  | some pos =>
    if pos = 1 then
      let r := play_next cfg a.1 chat csOk cvOk
      (r.1, trace0 ++ r.2.1, some pos)
    else (a.1, trace0, some pos)

/-- `MusicHandler.play` (state-relevant part): when the bot is not in
the voice chat, `join_voice_chat` first — a failed join is reported and
the command aborts (but keeps the state the failed join left behind);
then resolve the track (externally) and run the queueing tail. -/
def playCommand (cfg : Config) (s : AMState) (chat : Int) (t : Track)
    (user : Int) (inVC joinOk csOk cvOk : Bool) :
    AMState × List TCall × Option Nat :=
  if inVC then playAfterJoin cfg s chat t user [] csOk cvOk
  else
    let j := join_voice_chat cfg s chat joinOk
    if j.2.2 then playAfterJoin cfg j.1 chat t user j.2.1 csOk cvOk
    else (j.1, j.2.1, none)

/-- `MusicHandler.loop` with an argument: lowercase it, reject anything
outside `off`/`song`/`queue`, otherwise store it via
`set_loop_mode`. -/
def loopCommand (s : AMState) (chat : Int) (arg : String) : AMState :=
  let mode := arg.toLower
  if mode = "off" ∨ mode = "song" ∨ mode = "queue" then
    set_loop_mode s chat mode
  else s

/-- `CallbackHandler._handle_loop`: cycle off → song → queue → off from
the current mode and store the result. -/
def loopCallback (s : AMState) (chat : Int) : AMState :=
  let cur := (s.loop_modes chat).getD "off"
  let nm := if cur = "off" then "song"
            else if cur = "song" then "queue" else "off"
  set_loop_mode s chat nm

/-- `MusicHandler.volume` with an argument: reject levels outside
`[1, 200]` before ever reaching the manager, otherwise call
`set_volume`.  The `Bool` result records acceptance. -/
def volumeCommand (s : AMState) (chat : Int) (level : Int) (inVC : Bool) :
    AMState × List TCall × Bool :=
  if 1 ≤ level ∧ level ≤ 200 then
    let r := set_volume s chat level inVC
    (r.1, r.2, true)
  else (s, [], false)

/-- The operations reachable from the command and callback handlers,
each carrying its chat id, its arguments and the outcomes of its
external calls. -/
inductive Op where
  | playOp (chat : Int) (t : Track) (user : Int)
      (inVC joinOk csOk cvOk : Bool)
  | joinOp (chat : Int) (joinOk : Bool)
  | pauseOp (chat : Int) (inVC pOk : Bool)
  | resumeOp (chat : Int) (rOk : Bool)
  | skipOp (chat : Int) (csOk cvOk : Bool)
  | stopOp (chat : Int) (inVC leaveOk : Bool)
  | shuffleOp (chat : Int) (rand : List Nat)
  | clearOp (chat : Int)
  | loopCmdOp (chat : Int) (arg : String)
  | loopCbOp (chat : Int)
  | volumeOp (chat : Int) (level : Int) (inVC : Bool)
  | streamEndOp (chat : Int) (csOk cvOk leaveOk : Bool)

/-- State effect of one handler-level operation.  A `KeyError` escaping
`_on_stream_end` leaves the state as it was at the failing index
expression, i.e. unchanged. -/
def Op.step (cfg : Config) (s : AMState) : Op → AMState
  | .playOp chat t user inVC joinOk csOk cvOk =>
    (playCommand cfg s chat t user inVC joinOk csOk cvOk).1
  | .joinOp chat joinOk => (join_voice_chat cfg s chat joinOk).1
  | .pauseOp chat inVC pOk => (pause s chat inVC pOk).1
  | .resumeOp chat rOk => (resume s chat rOk).1
  | .skipOp chat csOk cvOk => (skip cfg s chat csOk cvOk).1
  | .stopOp chat inVC leaveOk => (stop s chat inVC leaveOk).1
  | .shuffleOp chat rand => (shuffle_queue s chat rand).1
  | .clearOp chat => clear_queue s chat
  | .loopCmdOp chat arg => loopCommand s chat arg
  | .loopCbOp chat => loopCallback s chat
  | .volumeOp chat level inVC => (volumeCommand s chat level inVC).1
  | .streamEndOp chat csOk cvOk leaveOk =>
    ((on_stream_end cfg s chat csOk cvOk leaveOk).map Prod.fst).getD s

/-- Run a sequence of handler-level operations. -/
def runOps (cfg : Config) (s : AMState) : List Op → AMState
  | [] => s
  | op :: rest => runOps cfg (Op.step cfg s op) rest

/-- Every stored loop mode is one of the three enumerated values. -/
def LoopInv (s : AMState) : Prop :=
  ∀ c m, s.loop_modes c = some m → m = "off" ∨ m = "song" ∨ m = "queue"

/-! ### Permutation facts about the Fisher-Yates swaps -/

theorem cons_set_perm {α : Type} :
    ∀ (xs : List α) (m : Nat) (b c : α), xs.get? m = some b →
      List.Perm (b :: xs.set m c) (c :: xs)
  | [], m, _, _, h => by cases m <;> simp at h
  | y :: ys, 0, b, c, h => by
    injection h with h
    subst h
    exact List.Perm.swap c y ys
  | y :: ys, m + 1, b, c, h =>
    ((List.Perm.swap y b (ys.set m c)).trans
      (List.Perm.cons y (cons_set_perm ys m b c h))).trans
      (List.Perm.swap c y ys)

theorem set_set_swap_perm {α : Type} :
    ∀ (l : List α) (i j : Nat) (a b : α),
      l.get? i = some a → l.get? j = some b →
      List.Perm ((l.set i b).set j a) l
  | [], i, _, _, _, hi, _ => by cases i <;> simp at hi
  | x :: xs, 0, 0, a, b, hi, hj => by
    injection hi with hi; injection hj with hj
    subst hi; subst hj
    exact List.Perm.refl _
  | x :: xs, 0, m + 1, a, b, hi, hj => by
    injection hi with hi
    subst hi
    exact cons_set_perm xs m b x hj
  | x :: xs, n + 1, 0, a, b, hi, hj => by
    injection hj with hj
    subst hj
    exact cons_set_perm xs n a x hi
  | x :: xs, n + 1, m + 1, a, b, hi, hj =>
    List.Perm.cons x (set_set_swap_perm xs n m a b hi hj)

theorem listSwap_perm {α : Type} (l : List α) (i j : Nat) :
    List.Perm (listSwap l i j) l := by
  unfold listSwap
  rcases hi : l.get? i with _ | a <;> rcases hj : l.get? j with _ | b <;>
    simp only
  · exact List.Perm.refl l
  · exact List.Perm.refl l
  · exact List.Perm.refl l
  · exact set_set_swap_perm l i j a b hi hj

theorem pyShuffleAux_perm {α : Type} :
    ∀ (i : Nat) (rand : List Nat) (l : List α),
      List.Perm (pyShuffleAux l i rand) l
  | 0, _, l => List.Perm.refl l
  | _ + 1, [], l => List.Perm.refl l
  | i + 1, j :: rest, l =>
    (pyShuffleAux_perm i rest (listSwap l (i + 1) j)).trans
      (listSwap_perm l (i + 1) j)

theorem pyShuffle_perm {α : Type} (l : List α) (rand : List Nat) :
    List.Perm (pyShuffle l rand) l :=
  pyShuffleAux_perm (l.length - 1) rand l

/-! ### Preservation of the loop-mode invariant -/

/-- After a step from `s` to `s'`, every chat's stored loop mode is
either what `s` stored, absent, or one of the three valid modes. -/
def loopSafe (s s' : AMState) : Prop :=
  ∀ c, s'.loop_modes c = s.loop_modes c ∨ s'.loop_modes c = none ∨
    s'.loop_modes c = some "off" ∨ s'.loop_modes c = some "song" ∨
    s'.loop_modes c = some "queue"

theorem loopSafe_of_eq {s s' : AMState}
    (h : s'.loop_modes = s.loop_modes) : loopSafe s s' :=
  fun c => Or.inl (congrFun h c)

theorem loopSafe_rfl (s : AMState) : loopSafe s s := fun _ => Or.inl rfl

theorem loopSafe_trans {s1 s2 s3 : AMState}
    (h12 : loopSafe s1 s2) (h23 : loopSafe s2 s3) : loopSafe s1 s3 := by
  intro c
  rcases h23 c with h | h | h | h | h
  · rw [h]; exact h12 c
  · exact Or.inr (Or.inl h)
  · exact Or.inr (Or.inr (Or.inl h))
  · exact Or.inr (Or.inr (Or.inr (Or.inl h)))
  · exact Or.inr (Or.inr (Or.inr (Or.inr h)))

theorem LoopInv_of_safe {s s' : AMState} (hs : LoopInv s)
    (h : loopSafe s s') : LoopInv s' := by
  intro c m hm
  rcases h c with h' | h' | h' | h' | h'
  · exact hs c m (h' ▸ hm)
  · rw [h'] at hm; cases hm
  · rw [h'] at hm; injection hm with hm; exact Or.inl hm.symm
  · rw [h'] at hm; injection hm with hm; exact Or.inr (Or.inl hm.symm)
  · rw [h'] at hm; injection hm with hm; exact Or.inr (Or.inr hm.symm)

theorem loopSafe_updFn {s s' : AMState} {chat : Int} {v : Option String}
    (hv : v = none ∨ v = some "off" ∨ v = some "song" ∨ v = some "queue")
    (h : s'.loop_modes = updFn s.loop_modes chat v) : loopSafe s s' := by
  intro c
  rw [h]
  unfold updFn
  by_cases hc : c = chat
  · rw [if_pos hc]
    rcases hv with hv | hv | hv | hv
    · exact Or.inr (Or.inl hv)
    · exact Or.inr (Or.inr (Or.inl hv))
    · exact Or.inr (Or.inr (Or.inr (Or.inl hv)))
    · exact Or.inr (Or.inr (Or.inr (Or.inr hv)))
  · rw [if_neg hc]
    exact Or.inl rfl

theorem add_to_queue_frame (cfg : Config) (s : AMState) (chat : Int)
    (t : Track) (user : Int) :
    (add_to_queue cfg s chat t user).1.current_tracks = s.current_tracks ∧
    (add_to_queue cfg s chat t user).1.loop_modes = s.loop_modes ∧
    (add_to_queue cfg s chat t user).1.volumes = s.volumes ∧
    (add_to_queue cfg s chat t user).1.paused_chats = s.paused_chats := by
  unfold add_to_queue
  dsimp only
  split <;> split <;> exact ⟨rfl, rfl, rfl, rfl⟩

theorem play_next_frame (cfg : Config) (s : AMState) (chat : Int)
    (csOk cvOk : Bool) :
    (play_next cfg s chat csOk cvOk).1.loop_modes = s.loop_modes ∧
    (play_next cfg s chat csOk cvOk).1.volumes = s.volumes ∧
    (play_next cfg s chat csOk cvOk).1.paused_chats = s.paused_chats := by
  unfold play_next
  split
  · exact ⟨rfl, rfl, rfl⟩
  · exact ⟨rfl, rfl, rfl⟩
  · dsimp only; split <;> exact ⟨rfl, rfl, rfl⟩

theorem skip_loop_modes (cfg : Config) (s : AMState) (chat : Int)
    (csOk cvOk : Bool) :
    (skip cfg s chat csOk cvOk).1.loop_modes = s.loop_modes := by
  unfold skip
  split
  · exact (play_next_frame cfg s chat csOk cvOk).1
  · rfl

theorem join_voice_chat_loopSafe (cfg : Config) (s : AMState) (chat : Int)
    (joinOk : Bool) : loopSafe s (join_voice_chat cfg s chat joinOk).1 := by
  unfold join_voice_chat
  dsimp only
  split
  · exact loopSafe_updFn (Or.inr (Or.inl rfl)) rfl
  · exact loopSafe_rfl s

theorem leave_voice_chat_loopSafe (s : AMState) (chat : Int) (ok : Bool) :
    loopSafe s (leave_voice_chat s chat ok).1 := by
  unfold leave_voice_chat
  split
  · exact loopSafe_updFn (Or.inl rfl) rfl
  · exact loopSafe_rfl s

theorem stop_loopSafe (s : AMState) (chat : Int) (inVC ok : Bool) :
    loopSafe s (stop s chat inVC ok).1 := by
  unfold stop
  split
  · exact leave_voice_chat_loopSafe s chat ok
  · exact loopSafe_rfl s

theorem stream_end_advance_loopSafe (cfg : Config) (s : AMState)
    (chat : Int) (csOk cvOk leaveOk : Bool) :
    loopSafe s (stream_end_advance cfg s chat csOk cvOk leaveOk).1 := by
  unfold stream_end_advance
  dsimp only
  split
  · exact loopSafe_of_eq (play_next_frame cfg s chat csOk cvOk).1
  · exact loopSafe_trans
      (loopSafe_of_eq (play_next_frame cfg s chat csOk cvOk).1)
      (leave_voice_chat_loopSafe _ chat leaveOk)

theorem on_stream_end_loopSafe (cfg : Config) (s : AMState) (chat : Int)
    (csOk cvOk leaveOk : Bool) :
    loopSafe s
      (((on_stream_end cfg s chat csOk cvOk leaveOk).map Prod.fst).getD s) := by
  unfold on_stream_end
  dsimp only
  split
  · split
    · exact loopSafe_rfl s
    · split
      · split
        · exact loopSafe_rfl s
        · exact loopSafe_of_eq (play_next_frame cfg _ chat csOk cvOk).1
      · exact stream_end_advance_loopSafe cfg s chat csOk cvOk leaveOk
  · exact stream_end_advance_loopSafe cfg s chat csOk cvOk leaveOk

theorem playAfterJoin_loop_modes (cfg : Config) (s : AMState) (chat : Int)
    (t : Track) (user : Int) (tr : List TCall) (csOk cvOk : Bool) :
    (playAfterJoin cfg s chat t user tr csOk cvOk).1.loop_modes =
      s.loop_modes := by
  unfold playAfterJoin
  dsimp only
  split
  · exact (add_to_queue_frame cfg s chat t user).2.1
  · split
    · exact (play_next_frame cfg _ chat csOk cvOk).1.trans
        (add_to_queue_frame cfg s chat t user).2.1
    · exact (add_to_queue_frame cfg s chat t user).2.1

theorem playCommand_loopSafe (cfg : Config) (s : AMState) (chat : Int)
    (t : Track) (user : Int) (inVC joinOk csOk cvOk : Bool) :
    loopSafe s (playCommand cfg s chat t user inVC joinOk csOk cvOk).1 := by
  unfold playCommand
  split
  · exact loopSafe_of_eq (playAfterJoin_loop_modes cfg s chat t user [] csOk cvOk)
  · dsimp only
    split
    · exact loopSafe_trans (join_voice_chat_loopSafe cfg s chat joinOk)
        (loopSafe_of_eq (playAfterJoin_loop_modes cfg _ chat t user _ csOk cvOk))
    · exact join_voice_chat_loopSafe cfg s chat joinOk

theorem loopCommand_loopSafe (s : AMState) (chat : Int) (arg : String) :
    loopSafe s (loopCommand s chat arg) := by
  unfold loopCommand set_loop_mode
  dsimp only
  split
  · rename_i h
    refine loopSafe_updFn ?_ rfl
    rcases h with h | h | h
    · exact Or.inr (Or.inl (by rw [h]))
    · exact Or.inr (Or.inr (Or.inl (by rw [h])))
    · exact Or.inr (Or.inr (Or.inr (by rw [h])))
  · exact loopSafe_rfl s

theorem loopCallback_loopSafe (s : AMState) (chat : Int) :
    loopSafe s (loopCallback s chat) := by
  unfold loopCallback set_loop_mode
  dsimp only
  refine loopSafe_updFn ?_ rfl
  split
  · exact Or.inr (Or.inr (Or.inl rfl))
  · split
    · exact Or.inr (Or.inr (Or.inr rfl))
    · exact Or.inr (Or.inl rfl)

theorem pause_loop_modes (s : AMState) (chat : Int) (inVC pOk : Bool) :
    (pause s chat inVC pOk).1.loop_modes = s.loop_modes := by
  unfold pause
  split
  · split <;> rfl
  · rfl

theorem resume_loop_modes (s : AMState) (chat : Int) (rOk : Bool) :
    (resume s chat rOk).1.loop_modes = s.loop_modes := by
  unfold resume
  split
  · split <;> rfl
  · rfl

theorem shuffle_queue_frame (s : AMState) (chat : Int) (rand : List Nat) :
    (shuffle_queue s chat rand).1.current_tracks = s.current_tracks ∧
    (shuffle_queue s chat rand).1.loop_modes = s.loop_modes ∧
    (shuffle_queue s chat rand).1.volumes = s.volumes ∧
    (shuffle_queue s chat rand).1.paused_chats = s.paused_chats := by
  unfold shuffle_queue
  split <;> exact ⟨rfl, rfl, rfl, rfl⟩

theorem clear_queue_loop_modes (s : AMState) (chat : Int) :
    (clear_queue s chat).loop_modes = s.loop_modes := by
  unfold clear_queue
  split <;> rfl

theorem volumeCommand_loop_modes (s : AMState) (chat : Int) (level : Int)
    (inVC : Bool) :
    (volumeCommand s chat level inVC).1.loop_modes = s.loop_modes := by
  unfold volumeCommand set_volume
  split <;> rfl

theorem step_loopSafe (cfg : Config) (s : AMState) (op : Op) :
    loopSafe s (Op.step cfg s op) := by
  cases op with
  | playOp chat t user inVC joinOk csOk cvOk =>
    exact playCommand_loopSafe cfg s chat t user inVC joinOk csOk cvOk
  | joinOp chat joinOk => exact join_voice_chat_loopSafe cfg s chat joinOk
  | pauseOp chat inVC pOk => exact loopSafe_of_eq (pause_loop_modes s chat inVC pOk)
  | resumeOp chat rOk => exact loopSafe_of_eq (resume_loop_modes s chat rOk)
  | skipOp chat csOk cvOk => exact loopSafe_of_eq (skip_loop_modes cfg s chat csOk cvOk)
  | stopOp chat inVC leaveOk => exact stop_loopSafe s chat inVC leaveOk
  | shuffleOp chat rand => exact loopSafe_of_eq (shuffle_queue_frame s chat rand).2.1
  | clearOp chat => exact loopSafe_of_eq (clear_queue_loop_modes s chat)
  | loopCmdOp chat arg => exact loopCommand_loopSafe s chat arg
  | loopCbOp chat => exact loopCallback_loopSafe s chat
  | volumeOp chat level inVC =>
    exact loopSafe_of_eq (volumeCommand_loop_modes s chat level inVC)
  | streamEndOp chat csOk cvOk leaveOk =>
    exact on_stream_end_loopSafe cfg s chat csOk cvOk leaveOk

theorem runOps_loopInv (cfg : Config) :
    ∀ (ops : List Op) (s : AMState), LoopInv s → LoopInv (runOps cfg s ops)
  | [], _, h => h
  | op :: rest, s, h =>
    runOps_loopInv cfg rest (Op.step cfg s op)
      (LoopInv_of_safe h (step_loopSafe cfg s op))

theorem loopInv_init : LoopInv AMState.init := by
  intro c m hm
  cases hm

/-! ### Concrete fixtures for witnesses and counterexamples -/

def trackA : Track := ⟨"A", "fileA", 120, 0, "x"⟩

def trackB : Track := ⟨"B", "fileB", 90, 0, "x"⟩

/-- A state whose only populated chat is chat 1, with the given
entries. -/
def mkState (q : Option (List Track)) (cur : Option (Option Track))
    (lm : Option String) (vol : Option Int) : AMState :=
  { queues := updFn (fun _ => none) 1 q,
    current_tracks := updFn (fun _ => none) 1 cur,
    loop_modes := updFn (fun _ => none) 1 lm,
    volumes := updFn (fun _ => none) 1 vol,
    paused_chats := fun _ => false }

/-! ### Claims -/

/-- C3: `add_to_queue` fails (raises, modelled `none`) exactly when the
queue already holds at least `MAX_QUEUE_SIZE` tracks, leaving the queue
contents unchanged; otherwise it appends the requester-stamped track and
returns the 1-based position, which is the queue length after the
insert; consequently a queue within the bound stays within the bound. -/
theorem C3_enqueue_bounds (cfg : Config) (s : AMState) (chat : Int)
    (t : Track) (user : Int) :
    ((add_to_queue cfg s chat t user).2 = none ↔
      cfg.maxQueueSize ≤ ((s.queues chat).getD []).length) ∧
    ((add_to_queue cfg s chat t user).2 = none →
      ((add_to_queue cfg s chat t user).1.queues chat).getD [] =
        (s.queues chat).getD []) ∧
    (∀ pos, (add_to_queue cfg s chat t user).2 = some pos →
      (add_to_queue cfg s chat t user).1.queues chat =
        some ((s.queues chat).getD [] ++
          [{ t with requested_by := user, requester_name := "Unknown" }]) ∧
      pos = ((s.queues chat).getD []).length + 1) ∧
    (((s.queues chat).getD []).length ≤ cfg.maxQueueSize →
      (((add_to_queue cfg s chat t user).1.queues chat).getD []).length ≤
        cfg.maxQueueSize) := by
  rcases hq : s.queues chat with _ | q
  · by_cases h0 : cfg.maxQueueSize = 0
    · simp [add_to_queue, hq, h0, updFn]
    · simp [add_to_queue, hq, h0, updFn]
      omega
  · by_cases hlen : cfg.maxQueueSize ≤ q.length
    · simp [add_to_queue, hq, hlen, updFn]
    · simp [add_to_queue, hq, hlen, updFn]
      omega

/-- C3 witness: on the default configuration, enqueueing into an empty
chat returns position 1 with the track appended. -/
theorem C3_enqueue_bounds_witness :
    (add_to_queue Config.default50 AMState.init 1 trackA 7).2 = some 1 ∧
    (add_to_queue Config.default50 AMState.init 1 trackA 7).1.queues 1 =
      some [{ trackA with requested_by := 7, requester_name := "Unknown" }] := by
  have h := C3_enqueue_bounds Config.default50 AMState.init 1 trackA 7
  have h2 := h.2.2.1 1 (by decide)
  exact ⟨by decide, by rw [h2.1]; decide⟩

/-- C5: `skip` advances regardless of the stored loop mode: with any
loop mode `m` (in particular `"song"`), a current track `a` and queue
head `b`, skipping makes the former queue head `b` current, pops it from
the queue, and the only stream issued to the transport is `b`'s locator
— the skipped track is never re-issued. -/
theorem C5_skip_ignores_loop_mode (cfg : Config) (s : AMState)
    (chat : Int) (a b : Track) (rest : List Track) (m : String)
    (hcur : s.current_tracks chat = some (some a))
    (hq : s.queues chat = some (b :: rest))
    (hm : s.loop_modes chat = some m) :
    (skip cfg s chat true true).2.2 = true ∧
    (skip cfg s chat true true).1.current_tracks chat = some (some b) ∧
    (skip cfg s chat true true).1.queues chat = some rest ∧
    (skip cfg s chat true true).1.loop_modes chat = some m ∧
    (∀ loc, TCall.changeStream chat loc ∈ (skip cfg s chat true true).2.1 →
      loc = b.file_path) := by
  simp [skip, play_next, hcur, hq, hm, updFn]

/-- C5 witness: skipping under `loop = "song"` with current `trackA`
and queue `[trackB]` makes `trackB` current. -/
theorem C5_skip_ignores_loop_mode_witness :
    (skip Config.default50
      (mkState (some [trackB]) (some (some trackA)) (some "song") (some 100))
      1 true true).1.current_tracks 1 = some (some trackB) :=
  (C5_skip_ignores_loop_mode Config.default50
    (mkState (some [trackB]) (some (some trackA)) (some "song") (some 100))
    1 trackA trackB [] "song" rfl rfl rfl).2.1

/-- C7: starting from the empty manager state, after any sequence of
handler-level operations every stored loop mode is one of the three
enumerated values `off`, `song`, `queue` — the handlers validate or
cycle the mode before ever calling `set_loop_mode`. -/
theorem C7_loop_mode_enumerated (cfg : Config) (ops : List Op) (c : Int)
    (m : String)
    (h : (runOps cfg AMState.init ops).loop_modes c = some m) :
    m = "off" ∨ m = "song" ∨ m = "queue" :=
  runOps_loopInv cfg ops AMState.init loopInv_init c m h

/-- C7 witness: after the loop-cycling callback on a fresh state the
stored mode is `"song"`, one of the three values. -/
theorem C7_loop_mode_enumerated_witness :
    "song" = "off" ∨ "song" = "song" ∨ "song" = "queue" :=
  C7_loop_mode_enumerated Config.default50 [Op.loopCbOp 1] 1 "song"
    (by decide)

/-- C8: `shuffle_queue` on an empty or absent queue returns `false` and
is the identity on the whole state; on a non-empty queue it returns
`true`, replaces the queue with a permutation of itself (for every
randomness source), and leaves the current track, loop mode, volume,
paused flag and every other chat's queue untouched. -/
theorem C8_shuffle_permutes (s : AMState) (chat : Int) (rand : List Nat) :
    ((s.queues chat).getD [] = [] → shuffle_queue s chat rand = (s, false)) ∧
    (∀ q, s.queues chat = some q → q ≠ [] →
      (shuffle_queue s chat rand).2 = true ∧
      (shuffle_queue s chat rand).1.queues chat = some (pyShuffle q rand) ∧
      List.Perm (pyShuffle q rand) q ∧
      (shuffle_queue s chat rand).1.current_tracks = s.current_tracks ∧
      (shuffle_queue s chat rand).1.loop_modes = s.loop_modes ∧
      (shuffle_queue s chat rand).1.volumes = s.volumes ∧
      (shuffle_queue s chat rand).1.paused_chats = s.paused_chats ∧
      (∀ c, c ≠ chat → (shuffle_queue s chat rand).1.queues c = s.queues c)) := by
  constructor
  · intro h
    rcases hq : s.queues chat with _ | q
    · simp [shuffle_queue, hq]
    · rw [hq] at h
      simp only [Option.getD_some] at h
      subst h
      simp [shuffle_queue, hq]
  · intro q hq hne
    rcases q with _ | ⟨t, ts⟩
    · exact absurd rfl hne
    · refine ⟨?_, ?_, pyShuffle_perm (t :: ts) rand, ?_, ?_, ?_, ?_, ?_⟩ <;>
        simp [shuffle_queue, hq, updFn]
      intro c hc
      simp [hc]

/-- C8 witness: shuffling the two-track queue `[trackA, trackB]` with
drawn index 0 returns `true` and yields a permutation. -/
theorem C8_shuffle_permutes_witness :
    (shuffle_queue
      (mkState (some [trackA, trackB]) (some (some trackA)) (some "off")
        (some 100)) 1 [0]).2 = true ∧
    List.Perm (pyShuffle [trackA, trackB] [0]) [trackA, trackB] := by
  have h := (C8_shuffle_permutes
    (mkState (some [trackA, trackB]) (some (some trackA)) (some "off")
      (some 100)) 1 [0]).2 [trackA, trackB] rfl (by decide)
  exact ⟨h.1, h.2.2.1⟩

/-- C9: the volume command rejects a level outside `[1, 200]` before
touching the manager — state identical, no transport call — and accepts
a level inside the range, storing it and forwarding it to the transport
exactly when a voice session is active. -/
theorem C9_volume_range (s : AMState) (chat : Int) (level : Int)
    (inVC : Bool) :
    (¬(1 ≤ level ∧ level ≤ 200) →
      volumeCommand s chat level inVC = (s, [], false)) ∧
    ((1 ≤ level ∧ level ≤ 200) →
      (volumeCommand s chat level inVC).2.2 = true ∧
      (volumeCommand s chat level inVC).1.volumes chat = some level ∧
      (volumeCommand s chat level inVC).1.queues = s.queues ∧
      (volumeCommand s chat level inVC).1.current_tracks = s.current_tracks ∧
      (volumeCommand s chat level inVC).1.loop_modes = s.loop_modes ∧
      (volumeCommand s chat level inVC).2.1 =
        (if inVC then [TCall.changeVolume chat level] else [])) := by
  constructor
  · intro h
    simp [volumeCommand, h]
  · intro h
    simp [volumeCommand, set_volume, h, updFn]

/-- C9 witness: `setVolume 250` is rejected with no state change and no
transport call. -/
theorem C9_volume_range_witness :
    volumeCommand (mkState (some []) (some none) (some "off") (some 100))
      1 250 true =
      (mkState (some []) (some none) (some "off") (some 100), [], false) :=
  (C9_volume_range (mkState (some []) (some none) (some "off") (some 100))
    1 250 true).1 (by decide)

/-- C10: with a current track recorded but an empty (or absent) queue,
`skip` returns `false` and is the identity: the state — including the
recorded current track — is untouched and no transport call is
attempted. -/
theorem C10_skip_empty_queue (cfg : Config) (s : AMState) (chat : Int)
    (t : Track) (csOk cvOk : Bool)
    (hcur : s.current_tracks chat = some (some t))
    (hq : (s.queues chat).getD [] = []) :
    skip cfg s chat csOk cvOk = (s, [], false) := by
  rcases hqq : s.queues chat with _ | q
  · simp [skip, play_next, hcur, hqq]
  · rw [hqq] at hq
    simp only [Option.getD_some] at hq
    subst hq
    simp [skip, play_next, hcur, hqq]

/-- C1 counterexample: in a chat with empty queue and current track
`trackA`, enqueueing `trackB` does NOT leave `trackA` current and does
issue a stream-change call — `MusicHandler.play` starts playback
whenever the returned position is 1, without checking for a current
track, so `trackB` replaces `trackA` immediately. -/
theorem C1_counterexample :
    (playCommand Config.default50
      (mkState (some []) (some (some trackA)) (some "off") (some 100))
      1 trackB 7 true true true true).1.current_tracks 1 ≠
        some (some trackA) ∧
    TCall.changeStream 1 trackB.file_path ∈
      (playCommand Config.default50
        (mkState (some []) (some (some trackA)) (some "off") (some 100))
        1 trackB 7 true true true true).2.1 := by
  constructor
  · decide
  · decide

/-- C1 amended: enqueueing `B` into a chat whose queue is empty is
started immediately whenever the returned position is 1, regardless of
any current track: `B` (requester-stamped) replaces the current track
`A`, the queue stays empty, and a stream-change call for `B`'s locator
(followed by a volume call) is issued. -/
theorem C1_amended (cfg : Config) (s : AMState) (chat : Int)
    (A B : Track) (user : Int)
    (hq : s.queues chat = some [])
    (hcur : s.current_tracks chat = some (some A))
    (hmax : 0 < cfg.maxQueueSize) :
    (playCommand cfg s chat B user true true true true).2.2 = some 1 ∧
    (playCommand cfg s chat B user true true true true).1.current_tracks
      chat = some (some { B with requested_by := user,
                                 requester_name := "Unknown" }) ∧
    (playCommand cfg s chat B user true true true true).1.queues chat =
      some [] ∧
    (playCommand cfg s chat B user true true true true).2.1 =
      [TCall.changeStream chat B.file_path,
       TCall.changeVolume chat ((s.volumes chat).getD cfg.defaultVolume)] := by
  have hm : ¬ cfg.maxQueueSize = 0 := by omega
  simp [playCommand, playAfterJoin, add_to_queue, play_next, hq, hcur, hm,
    updFn]

/-- C1 amended witness: the concrete scenario of the counterexample,
through the amended statement. -/
theorem C1_amended_witness :
    (playCommand Config.default50
      (mkState (some []) (some (some trackA)) (some "off") (some 100))
      1 trackB 7 true true true true).1.current_tracks 1 =
      some (some { trackB with requested_by := 7,
                               requester_name := "Unknown" }) :=
  (C1_amended Config.default50
    (mkState (some []) (some (some trackA)) (some "off") (some 100))
    1 trackA trackB 7 rfl rfl (by decide)).2.1

/-- C2 counterexample: a failed join on a fresh chat DOES create the
per-chat state record — `join_voice_chat` initializes all four
dictionaries before attempting the external call, and the `raise` on
failure does not undo that. -/
theorem C2_counterexample :
    (join_voice_chat Config.default50 AMState.init 1 false).2.2 = false ∧
    (join_voice_chat Config.default50 AMState.init 1 false).1.queues 1 =
      some [] ∧
    (join_voice_chat Config.default50 AMState.init 1 false).1.current_tracks
      1 = some none ∧
    (join_voice_chat Config.default50 AMState.init 1 false).1.loop_modes 1 =
      some "off" ∧
    (join_voice_chat Config.default50 AMState.init 1 false).1.volumes 1 =
      some 100 := by
  refine ⟨rfl, ?_, ?_, ?_, ?_⟩ <;> decide

/-- C2 amended: a failed join reports the error to the caller (the
exception propagates) and issues exactly one join call; a chat that
already had a state record keeps its state bit-for-bit, but a chat with
no record gets a fresh default record (empty queue, no current track,
loop off, default volume) that persists despite the failure; other
chats are untouched. -/
theorem C2_amended (cfg : Config) (s : AMState) (chat : Int) :
    (join_voice_chat cfg s chat false).2.2 = false ∧
    (join_voice_chat cfg s chat false).2.1 = [TCall.joinGroupCall chat] ∧
    ((s.queues chat).isSome → (join_voice_chat cfg s chat false).1 = s) ∧
    (s.queues chat = none →
      (join_voice_chat cfg s chat false).1.queues chat = some [] ∧
      (join_voice_chat cfg s chat false).1.current_tracks chat = some none ∧
      (join_voice_chat cfg s chat false).1.loop_modes chat = some "off" ∧
      (join_voice_chat cfg s chat false).1.volumes chat =
        some cfg.defaultVolume ∧
      (join_voice_chat cfg s chat false).1.paused_chats = s.paused_chats ∧
      (∀ c, c ≠ chat →
        (join_voice_chat cfg s chat false).1.queues c = s.queues c ∧
        (join_voice_chat cfg s chat false).1.current_tracks c =
          s.current_tracks c ∧
        (join_voice_chat cfg s chat false).1.loop_modes c = s.loop_modes c ∧
        (join_voice_chat cfg s chat false).1.volumes c = s.volumes c)) := by
  refine ⟨rfl, rfl, ?_, ?_⟩
  · intro h
    rcases hq : s.queues chat with _ | q
    · rw [hq] at h; cases h
    · simp [join_voice_chat, hq]
  · intro h
    refine ⟨?_, ?_, ?_, ?_, ?_, ?_⟩ <;>
      simp [join_voice_chat, h, updFn]
    intro c hc
    simp [hc]

/-- C2 amended witness: the fresh-chat case at chat 1. -/
theorem C2_amended_witness :
    (join_voice_chat Config.default50 AMState.init 1 false).1.queues 1 =
      some [] ∧
    (join_voice_chat Config.default50 AMState.init 1 false).1.loop_modes 1 =
      some "off" :=
  have h := (C2_amended Config.default50 AMState.init 1).2.2.2 rfl
  ⟨h.1, h.2.2.1⟩

/-- C4 counterexample: when the transport does not report the chat as
being in a voice call, `stop` does nothing at all: the queue and the
current track survive and no leave call is requested — not "for every
chat". -/
theorem C4_counterexample :
    (stop (mkState (some [trackA]) (some (some trackA)) (some "off")
      (some 100)) 1 false true).1.queues 1 = some [trackA] ∧
    (stop (mkState (some [trackA]) (some (some trackA)) (some "off")
      (some 100)) 1 false true).1.current_tracks 1 = some (some trackA) ∧
    (stop (mkState (some [trackA]) (some (some trackA)) (some "off")
      (some 100)) 1 false true).2 = [] := by
  refine ⟨?_, ?_, rfl⟩ <;> decide

/-- C4 amended: `stop` consults `is_in_voice_chat` first.  Not in a
voice chat: complete no-op (state unchanged, no transport call).  In a
voice chat: a leave call is requested; if it fails the state is left
unchanged (the cleanup is skipped), and only if it succeeds are the
chat's queue, current track, loop mode, volume and paused flag all
removed. -/
theorem C4_amended (s : AMState) (chat : Int) :
    (∀ ok, stop s chat false ok = (s, [])) ∧
    ((stop s chat true false).1 = s ∧
      (stop s chat true false).2 = [TCall.leaveGroupCall chat]) ∧
    ((stop s chat true true).1.queues chat = none ∧
      (stop s chat true true).1.current_tracks chat = none ∧
      (stop s chat true true).1.loop_modes chat = none ∧
      (stop s chat true true).1.volumes chat = none ∧
      (stop s chat true true).1.paused_chats chat = false ∧
      (stop s chat true true).2 = [TCall.leaveGroupCall chat]) := by
  refine ⟨fun ok => rfl, ⟨rfl, rfl⟩, ?_, ?_, ?_, ?_, ?_, rfl⟩ <;>
    simp [stop, leave_voice_chat, updFn, updSet]

/-- C4 amended witness: the successful-leave case clears the record. -/
theorem C4_amended_witness :
    (stop (mkState (some [trackA]) (some (some trackA)) (some "off")
      (some 100)) 1 true true).1.queues 1 = none :=
  (C4_amended (mkState (some [trackA]) (some (some trackA)) (some "off")
    (some 100)) 1).2.2.1

/-- C6 counterexample: stream-end under `loop = "queue"` with current
`trackA` and an EMPTY queue does not leave the finished track at the
tail of the queue: it is appended and immediately popped back into
`current`, so the final queue is empty (the finished track appears zero
times) and no former queue head exists. -/
theorem C6_counterexample :
    ((on_stream_end Config.default50
      (mkState (some []) (some (some trackA)) (some "queue") (some 100))
      1 true true true).map
        (fun p => (p.1.queues 1, p.1.current_tracks 1))) =
      some (some [], some (some trackA)) := by
  decide

/-- C6 amended: stream-end under `loop = "queue"` with current track
`c` appends `c` to the queue exactly once and then pops the new front:
when the former queue was `h :: rest`, the result is queue
`rest ++ [c]` (tail position, added exactly once, nothing lost) with
`h` current; when the former queue was empty, `c` is popped right back,
leaving the queue empty with `c` still current. -/
theorem C6_amended (cfg : Config) (s : AMState) (chat : Int) (c : Track)
    (q : List Track)
    (hloop : s.loop_modes chat = some "queue")
    (hcur : s.current_tracks chat = some (some c))
    (hq : s.queues chat = some q) :
    (q = [] →
      ((on_stream_end cfg s chat true true true).map
        (fun p => (p.1.queues chat, p.1.current_tracks chat))) =
        some (some [], some (some c))) ∧
    (∀ h rest, q = h :: rest →
      ((on_stream_end cfg s chat true true true).map
        (fun p => (p.1.queues chat, p.1.current_tracks chat))) =
        some (some (rest ++ [c]), some (some h))) := by
  constructor
  · intro h
    subst h
    simp [on_stream_end, play_next, hloop, hcur, hq, updFn]
  · intro h rest hcons
    subst hcons
    simp [on_stream_end, play_next, hloop, hcur, hq, updFn]

/-- C6 amended witness: with former queue `[trackB]`, the finished
`trackA` ends at the tail and `trackB` becomes current. -/
theorem C6_amended_witness :
    ((on_stream_end Config.default50
      (mkState (some [trackB]) (some (some trackA)) (some "queue")
        (some 100)) 1 true true true).map
        (fun p => (p.1.queues 1, p.1.current_tracks 1))) =
      some (some [trackA], some (some trackB)) :=
  (C6_amended Config.default50
    (mkState (some [trackB]) (some (some trackA)) (some "queue")
      (some 100)) 1 trackA [trackB] rfl rfl rfl).2 trackB [] rfl

/-- C10 witness: skipping with current `trackA` and an empty queue
leaves everything unchanged and returns `false`. -/
theorem C10_skip_empty_queue_witness :
    skip Config.default50
      (mkState (some []) (some (some trackA)) (some "off") (some 100))
      1 true true =
      (mkState (some []) (some (some trackA)) (some "off") (some 100),
       [], false) :=
  C10_skip_empty_queue Config.default50
    (mkState (some []) (some (some trackA)) (some "off") (some 100))
    1 trackA true true rfl rfl
